import Mathlib

set_option maxRecDepth 4000

/-
Shallow embedding of the PyFinModeler financial-modeling engine
(core.financial_item, core.financial_statement, core.company,
forecast.forecast_rule, forecast.forecast_model, forecast.statistical_forecaster,
kpi.kpi_manager, valuation.dividend_discount_model, scenario.scenario_model).

Python dicts are embedded as insertion-ordered association lists with unique
keys; Python floats as rationals; Python exceptions as Except String results.
External numeric libraries (numpy std, numpy random draws) are treated as
black-box oracles passed in as parameters, following the stated design that
the engine treats third-party statistical libraries as black-box generators.
-/

/-- Dict lookup: d.get(k). Returns the value of the first entry with key k. -/
def lookupA {α : Type} (k : String) : List (String × α) → Option α
  | [] => none
  | kv :: rest => if k = kv.1 then some kv.2 else lookupA k rest

/-- Dict assignment d[k] = v: overwrite in place if the key exists (keeping its
position, as Python dicts do), otherwise append at the end. -/
def dictSet {α : Type} (k : String) (v : α) : List (String × α) → List (String × α)
  | [] => [(k, v)]
  | kv :: rest => if kv.1 = k then (k, v) :: rest else kv :: dictSet k v rest

/-- Lexicographic strict order on code-point lists: exactly the comparison
Python uses on strings (and propositionally the order of Lean strings, spelled
out so that it reduces inside the kernel). -/
def listCharLt : List Char → List Char → Bool
  | [], [] => false
  | [], _ :: _ => true
  | _ :: _, [] => false
  | a :: as, b :: bs =>
    if a.toNat < b.toNat then true
    else if b.toNat < a.toNat then false
    else listCharLt as bs

/-- Python s < t on strings. -/
def strLt (s t : String) : Bool := listCharLt s.data t.data

/-- Python s <= t on strings. -/
def strLe (s t : String) : Bool := !(listCharLt t.data s.data)

/-- One step of insertion sort on key-value pairs, ordered by key
(Python tuple comparison on dict items with unique keys compares keys). -/
def insertByKey {α : Type} (p : String × α) : List (String × α) → List (String × α)
  | [] => [p]
  | q :: rest => if strLe p.1 q.1 then p :: q :: rest else q :: insertByKey p rest

/-- dict(sorted(d.items())): stable insertion sort by key. -/
def sortByKey {α : Type} : List (String × α) → List (String × α)
  | [] => []
  | p :: rest => insertByKey p (sortByKey rest)

/-- sorted(d.keys())[-1]: the lexicographically largest key, none if empty. -/
def maxKey {α : Type} (l : List (String × α)) : Option String :=
  l.foldl (fun acc kv =>
    match acc with
    | none => some kv.1
    | some m => some (if strLe m kv.1 then kv.1 else m)) none

/-- Python float division: raises ZeroDivisionError on a zero divisor. -/
def pydiv (a b : ℚ) : Except String ℚ :=
  if b = 0 then Except.error "ZeroDivisionError" else Except.ok (a / b)

/-- round(x, 2). Python rounds floats half to even in binary; we model real
arithmetic with the standard rounding of Mathlib. No verified claim depends on
tie-breaking behavior. -/
def round2 (q : ℚ) : ℚ := ((round (q * 100) : ℤ) : ℚ) / 100

/-- round(x, 3), same modeling note as round2. -/
def round3 (q : ℚ) : ℚ := ((round (q * 1000) : ℤ) : ℚ) / 1000

/-- Characters kept by the regex [A-Za-z0-9_] of utils.name_sanitizer. -/
def validNameChar (c : Char) : Bool :=
  decide (('A' ≤ c ∧ c ≤ 'Z') ∨ ('a' ≤ c ∧ c ≤ 'z') ∨ ('0' ≤ c ∧ c ≤ '9') ∨ c = '_')

/-- utils.name_sanitizer.sanitize_item_name: spaces and hyphens become
underscores, other invalid characters are removed, a leading digit gets an
underscore prefix. -/
def sanitize_item_name (s : String) : String :=
  let step1 := s.data.map (fun c => if c == ' ' || c == '-' then '_' else c)
  let step2 := step1.filter validNameChar
  String.mk (match step2 with
    | [] => []
    | c :: rest => if c.isDigit then '_' :: c :: rest else c :: rest)

/-- Parse a list of decimal digit characters; none on empty or non-digit input. -/
def digitCharsToNat? : List Char → Option Nat
  | [] => none
  | l => l.foldl (fun acc c =>
      match acc with
      | none => none
      | some n => if c.isDigit then some (n * 10 + (c.toNat - 48)) else none) (some 0)

/-- Python int(s) on a trimmed decimal string, with optional sign. -/
def digitsToInt? : List Char → Option Int
  | '-' :: rest => (digitCharsToNat? rest).map (fun n => -(n : Int))
  | '+' :: rest => (digitCharsToNat? rest).map (fun n => (n : Int))
  | l => (digitCharsToNat? l).map (fun n => (n : Int))

/-- str.split(sep) for a single separator character. -/
def splitOnChar (c : Char) : List Char → List (List Char)
  | [] => [[]]
  | d :: rest =>
    match splitOnChar c rest with
    | [] => [[]]
    | g :: gs => if d = c then [] :: g :: gs else (d :: g) :: gs

/-- core.financial_item_type.FinancialItemType. -/
inductive FinancialItemType where
  | asset | liability | equity | revenue | expense | result | ratio
  | cashFlowOperating | cashFlowInvesting | cashFlowFinancing | cashFlowSummary
  | dividend | other
deriving DecidableEq

/-- The .value string of each enum member. -/
def FinancialItemType.value : FinancialItemType → String
  | .asset => "Asset"
  | .liability => "Liability"
  | .equity => "Equity"
  | .revenue => "Revenue"
  | .expense => "Expense"
  | .result => "Result"
  | .ratio => "Ratio"
  | .cashFlowOperating => "Operating Cash Flow Item"
  | .cashFlowInvesting => "Investing Cash Flow Item"
  | .cashFlowFinancing => "Financing Cash Flow Item"
  | .cashFlowSummary => "Net Cash Flow (Summary)"
  | .dividend => "Dividends Paid"
  | .other => "Other"

/-- FinancialItemType(s): enum lookup by value string. -/
def FinancialItemType.ofValue (s : String) : Option FinancialItemType :=
  if s = "Asset" then some .asset
  else if s = "Liability" then some .liability
  else if s = "Equity" then some .equity
  else if s = "Revenue" then some .revenue
  else if s = "Expense" then some .expense
  else if s = "Result" then some .result
  else if s = "Ratio" then some .ratio
  else if s = "Operating Cash Flow Item" then some .cashFlowOperating
  else if s = "Investing Cash Flow Item" then some .cashFlowInvesting
  else if s = "Financing Cash Flow Item" then some .cashFlowFinancing
  else if s = "Net Cash Flow (Summary)" then some .cashFlowSummary
  else if s = "Dividends Paid" then some .dividend
  else if s = "Other" then some .other
  else none

/-- core.financial_item.FinancialItem. -/
structure FinancialItem where
  name : String
  item_type : FinancialItemType
  historical : List (String × ℚ)
  forecasted : List (String × ℚ)
deriving DecidableEq

/-- FinancialItem.__init__: sanitizes the name and sorts both maps. -/
def mkFinancialItem (name : String) (t : FinancialItemType)
    (hist fcst : List (String × ℚ)) : FinancialItem :=
  ⟨sanitize_item_name name, t, sortByKey hist, sortByKey fcst⟩

/-- FinancialItem.add_historical: assign then re-sort by period. -/
def FinancialItem.add_historical (it : FinancialItem) (period : String) (value : ℚ) :
    FinancialItem :=
  ⟨it.name, it.item_type, sortByKey (dictSet period value it.historical), it.forecasted⟩

/-- FinancialItem.add_forecasted: assign then re-sort by period. -/
def FinancialItem.add_forecasted (it : FinancialItem) (period : String) (value : ℚ) :
    FinancialItem :=
  ⟨it.name, it.item_type, it.historical, sortByKey (dictSet period value it.forecasted)⟩

/-- FinancialItem.get_value: forecasted.get(period) or historical.get(period).
The Python or-chain treats a forecasted value of 0.0 as falsy, so a zero
forecasted entry falls through to the historical map. -/
def FinancialItem.get_value (it : FinancialItem) (period : String) : Option ℚ :=
  match lookupA period it.forecasted with
  | some v => if v = 0 then lookupA period it.historical else some v
  | none => lookupA period it.historical

/-- The loop body of FinancialItem.forecast_growth: for each of the remaining
steps, compute the next annual period label from the anchor year plus the step
index, pick the growth from the schedule else the flat rate, compound the
running value and write it into the forecasted map. The frequency test and the
year parse happen inside the loop, as in the source. -/
def fgLoop (growth_rate : Option ℚ) (growth_schedule : List (String × ℚ))
    (frequency : String) (last_period : String) :
    Nat → Nat → ℚ → List (String × ℚ) → Except String (List (String × ℚ))
  | 0, _, _, f => Except.ok f
  | n + 1, i, cur, f =>
    if frequency = "Annual" then
      match digitsToInt? (last_period.data.take 4) with
      | none => Except.error "ValueError: invalid literal for int"
      | some y =>
        let next_period := toString (y + (i : Int))
        match (match lookupA next_period growth_schedule with
               | some g => some g
               | none => growth_rate) with
        | some g =>
            fgLoop growth_rate growth_schedule frequency last_period n (i + 1)
              (cur * (1 + g)) (dictSet next_period (cur * (1 + g)) f)
        | none => Except.error "No growth specified"
    else Except.error "Only Annual supported currently"

/-- FinancialItem.forecast_growth. A missing schedule is passed as the empty
map, which behaves like None in the falsy test of the source. The anchor value
lookup cannot miss because the anchor key comes from the same dict; the getD
default is never reached. -/
def FinancialItem.forecast_growth (it : FinancialItem) (growth_rate : Option ℚ)
    (growth_schedule : List (String × ℚ)) (periods : Nat) (frequency : String) :
    Except String FinancialItem :=
  match maxKey it.historical with
  | none => Except.error "No historical data"
  | some last_period =>
    let last_value := (lookupA last_period it.historical).getD 0
    (fgLoop growth_rate growth_schedule frequency last_period periods 1 last_value
        it.forecasted).map
      (fun f => ⟨it.name, it.item_type, it.historical, f⟩)

theorem lookupA_dictSet_self {α : Type} (k : String) (v : α) :
    ∀ l : List (String × α), lookupA k (dictSet k v l) = some v := by
  intro l
  induction l with
  | nil => simp [dictSet, lookupA]
  | cons kv rest ih =>
    by_cases h : kv.1 = k
    · simp [dictSet, h, lookupA]
    · simp only [dictSet, if_neg h, lookupA]
      rw [if_neg (fun hk => h hk.symm), ih]

theorem fgLoop_flat_rate (r : ℚ) (last_period : String) (y : Int)
    (hy : digitsToInt? (last_period.data.take 4) = some y) :
    ∀ (n : Nat), 1 ≤ n → ∀ (i : Nat) (cur : ℚ) (f : List (String × ℚ)),
    ∃ f', fgLoop (some r) [] "Annual" last_period n i cur f = Except.ok f' ∧
      lookupA (toString (y + (i : Int) + (n : Int) - 1)) f' = some (cur * (1 + r) ^ n) := by
  intro n
  induction n with
  | zero => intro h; omega
  | succ m ih =>
    intro _ i cur f
    by_cases hm : m = 0
    · subst hm
      refine ⟨dictSet (toString (y + (i : Int))) (cur * (1 + r)) f, ?_, ?_⟩
      · simp [fgLoop, hy, lookupA]
      · have harg : y + (i : Int) + ((1 : Nat) : Int) - 1 = y + (i : Int) := by push_cast; ring
        rw [harg, lookupA_dictSet_self, pow_one]
    · have hm1 : 1 ≤ m := Nat.one_le_iff_ne_zero.mpr hm
      obtain ⟨f', hok, hlk⟩ := ih hm1 (i + 1) (cur * (1 + r))
        (dictSet (toString (y + (i : Int))) (cur * (1 + r)) f)
      refine ⟨f', ?_, ?_⟩
      · simp only [fgLoop, if_pos rfl, hy, lookupA]
        exact hok
      · have harg : y + ((i + 1 : Nat) : Int) + (m : Int) - 1
            = y + (i : Int) + ((m + 1 : Nat) : Int) - 1 := by push_cast; ring
        rw [harg] at hlk
        rw [hlk]
        congr 1
        ring

/-- C1 counterexample item, built through the public mutation API: the
forecasted map holds 0.0 for period 2024 while the historical map holds 500. -/
def c1CexItem : FinancialItem :=
  ((mkFinancialItem "Revenue" FinancialItemType.revenue [] []).add_historical
      "2024" 500).add_forecasted "2024" 0

/-- C1: the claim states get_value returns the forecasted value whenever the
forecasted map contains an entry for the period, even when that value is 0.0.
On an item whose forecasted map holds 0.0 for 2024 and whose historical map
holds 500, get_value returns 500 (the historical value), not 0.0: the or-chain
of the source treats 0.0 as missing. This refutes the claim at a concrete
input. -/
theorem C1_get_value_zero_counterexample :
    c1CexItem.get_value "2024" = some 500 ∧
      c1CexItem.get_value "2024" ≠ some 0 := by
  constructor
  · rfl
  · decide

/-- C1 amended: get_value returns the forecasted value when it is present and
nonzero; when the forecasted entry is 0.0 or absent it falls back to the
historical lookup (possibly nothing). The result only depends on the final
maps, and historical and forecasted insertions commute, so the property is
independent of insertion order. -/
theorem C1_get_value_priority (it : FinancialItem) (p : String) (v : ℚ) :
    (lookupA p it.forecasted = some v → v ≠ 0 → it.get_value p = some v) ∧
    (lookupA p it.forecasted = some 0 → it.get_value p = lookupA p it.historical) ∧
    (lookupA p it.forecasted = none → it.get_value p = lookupA p it.historical) ∧
    (∀ q w, (it.add_forecasted q w).add_historical p v
        = (FinancialItem.add_historical it p v).add_forecasted q w) := by
  refine ⟨?_, ?_, ?_, ?_⟩
  · intro h hv
    simp [FinancialItem.get_value, h, hv]
  · intro h
    simp [FinancialItem.get_value, h]
  · intro h
    simp [FinancialItem.get_value, h]
  · intro q w
    rfl

/-- C1 amended, witness: on a concrete item with a nonzero forecasted entry the
forecasted value wins over the historical one. -/
theorem C1_get_value_priority_witness :
    FinancialItem.get_value ⟨"Revenue", FinancialItemType.revenue,
        [("2024", 500)], [("2024", 7)]⟩ "2024" = some 7 :=
  (C1_get_value_priority ⟨"Revenue", FinancialItemType.revenue,
      [("2024", 500)], [("2024", 7)]⟩ "2024" 7).1 (by decide) (by decide)

/-- C2: forecast_growth with a flat rate r (no schedule) over k periods, on an
item whose lexicographically last historical period carries value v and parses
to year y, succeeds and writes v times (1+r)^k as the forecasted value of the
period k annual steps after the anchor. The value is produced by sequential
compounding, which for a flat rate equals the closed form exactly over the
rationals. -/
theorem C2_forecast_growth_flat_rate (it : FinancialItem) (p : String) (v r : ℚ)
    (y : Int) (k : Nat)
    (hmax : maxKey it.historical = some p)
    (hval : lookupA p it.historical = some v)
    (hy : digitsToInt? (p.data.take 4) = some y)
    (hk : 1 ≤ k) :
    ∃ it', it.forecast_growth (some r) [] k "Annual" = Except.ok it' ∧
      lookupA (toString (y + (k : Int))) it'.forecasted = some (v * (1 + r) ^ k) := by
  obtain ⟨f', hok, hlk⟩ := fgLoop_flat_rate r p y hy k hk 1 v it.forecasted
  refine ⟨⟨it.name, it.item_type, it.historical, f'⟩, ?_, ?_⟩
  · simp only [FinancialItem.forecast_growth, hmax, hval, Option.getD_some, hok, Except.map]
  · have harg : y + ((1 : Nat) : Int) + (k : Int) - 1 = y + (k : Int) := by push_cast; ring
    rw [harg] at hlk
    exact hlk

/-- C2 witness: anchor 2023 with value 1000, rate 10 percent, two periods:
the period 2025 receives 1000 times 1.1 squared = 1210. -/
theorem C2_forecast_growth_flat_rate_witness :
    ∃ it', (mkFinancialItem "Revenue" FinancialItemType.revenue
        [("2023", 1000)] []).forecast_growth (some (1/10)) [] 2 "Annual" = Except.ok it' ∧
      lookupA (toString ((2023 : Int) + ((2 : Nat) : Int))) it'.forecasted
        = some (1000 * (1 + 1/10) ^ 2) :=
  C2_forecast_growth_flat_rate
    (mkFinancialItem "Revenue" FinancialItemType.revenue [("2023", 1000)] [])
    "2023" 1000 (1/10) 2023 2 (by decide) (by decide) (by decide) (by decide)

/-- core.company.Company: identity fields plus the five statements, each an
insertion-ordered map from line-item name to FinancialItem (the statements
object wrapper and its plotting are presentation-only and omitted). -/
structure Company where
  name : String
  ticker : String
  currency : String
  description : Option String
  income : List (String × FinancialItem)
  balance : List (String × FinancialItem)
  cashflow : List (String × FinancialItem)
  kpiSt : List (String × FinancialItem)
  otherSt : List (String × FinancialItem)
deriving DecidableEq

/-- Tag naming the statement in which an item was found. -/
inductive StatementKind where
  | income | balance | cashflow | kpiSt | otherSt
deriving DecidableEq

/-- ForecastModel._find_item, keeping which statement matched first:
Income, Balance, CashFlow, KPI, OtherFinancials in that order. -/
def Company.findItemTagged (c : Company) (n : String) :
    Option (StatementKind × FinancialItem) :=
  match lookupA n c.income with
  | some it => some (StatementKind.income, it)
  | none =>
  match lookupA n c.balance with
  | some it => some (StatementKind.balance, it)
  | none =>
  match lookupA n c.cashflow with
  | some it => some (StatementKind.cashflow, it)
  | none =>
  match lookupA n c.kpiSt with
  | some it => some (StatementKind.kpiSt, it)
  | none =>
  match lookupA n c.otherSt with
  | some it => some (StatementKind.otherSt, it)
  | none => none

/-- ForecastModel._find_item and KPIManager._find_item: the item only. -/
def Company.findItem (c : Company) (n : String) : Option FinancialItem :=
  (c.findItemTagged n).map Prod.snd

/-- Write an item back into the statement it was found in, under the key it
was found under (the source mutates the found object in place). -/
def Company.setItemAt (c : Company) (tag : StatementKind) (key : String)
    (it : FinancialItem) : Company :=
  match tag with
  | StatementKind.income =>
      ⟨c.name, c.ticker, c.currency, c.description, dictSet key it c.income,
        c.balance, c.cashflow, c.kpiSt, c.otherSt⟩
  | StatementKind.balance =>
      ⟨c.name, c.ticker, c.currency, c.description, c.income,
        dictSet key it c.balance, c.cashflow, c.kpiSt, c.otherSt⟩
  | StatementKind.cashflow =>
      ⟨c.name, c.ticker, c.currency, c.description, c.income, c.balance,
        dictSet key it c.cashflow, c.kpiSt, c.otherSt⟩
  | StatementKind.kpiSt =>
      ⟨c.name, c.ticker, c.currency, c.description, c.income, c.balance,
        c.cashflow, dictSet key it c.kpiSt, c.otherSt⟩
  | StatementKind.otherSt =>
      ⟨c.name, c.ticker, c.currency, c.description, c.income, c.balance,
        c.cashflow, c.kpiSt, dictSet key it c.otherSt⟩

/-- An arithmetic expression over line-item names, the shape of formula
strings accepted by KPIManager (evaluated with + - * / and parentheses over
substituted variables; numeric literals appear as constants). -/
inductive Expr where
  | num (q : ℚ)
  | var (name : String)
  | add (a b : Expr)
  | sub (a b : Expr)
  | mul (a b : Expr)
  | neg (a : Expr)
  | divE (a b : Expr)
deriving DecidableEq

/-- Evaluate a formula under an environment; float division by zero raises
ZeroDivisionError exactly as Python eval does. -/
def evalExpr (env : String → ℚ) : Expr → Except String ℚ
  | Expr.num q => Except.ok q
  | Expr.var n => Except.ok (env n)
  | Expr.add a b =>
    match evalExpr env a, evalExpr env b with
    | Except.ok x, Except.ok y => Except.ok (x + y)
    | Except.error e, _ => Except.error e
    | _, Except.error e => Except.error e
  | Expr.sub a b =>
    match evalExpr env a, evalExpr env b with
    | Except.ok x, Except.ok y => Except.ok (x - y)
    | Except.error e, _ => Except.error e
    | _, Except.error e => Except.error e
  | Expr.mul a b =>
    match evalExpr env a, evalExpr env b with
    | Except.ok x, Except.ok y => Except.ok (x * y)
    | Except.error e, _ => Except.error e
    | _, Except.error e => Except.error e
  | Expr.neg a =>
    match evalExpr env a with
    | Except.ok x => Except.ok (-x)
    | Except.error e => Except.error e
  | Expr.divE a b =>
    match evalExpr env a, evalExpr env b with
    | Except.ok x, Except.ok y =>
        if y = 0 then Except.error "ZeroDivisionError" else Except.ok (x / y)
    | Except.error e, _ => Except.error e
    | _, Except.error e => Except.error e

/-- The identifier tokens of a formula (KPIManager._extract_variables; the
source deduplicates through a set, which only affects traversal order of
operations whose outcome is order-independent). -/
def exprVars : Expr → List String
  | Expr.num _ => []
  | Expr.var n => [n]
  | Expr.add a b => exprVars a ++ exprVars b
  | Expr.sub a b => exprVars a ++ exprVars b
  | Expr.mul a b => exprVars a ++ exprVars b
  | Expr.neg a => exprVars a
  | Expr.divE a b => exprVars a ++ exprVars b

/-- A KPI registered in KPIManager.kpis: either a formula or the per-period
callable installed by add_percentage_change_kpi and friends. The callable may
raise (modelled as error) or return None. -/
inductive KPIEntry where
  | formula (e : Expr)
  | perPeriod (f : String → Except String (Option ℚ))

/-- forecast.assumption_set values: scalar or per-period overrides. -/
inductive AssumptionValue where
  | scalar (q : ℚ)
  | perPeriod (m : List (String × ℚ))

/-- forecast.statistical_forecaster.StatisticalForecaster state after
__init__: values list, numpy mean and std, sorted period keys. -/
structure StatisticalForecaster where
  historical : List (String × ℚ)
  values : List ℚ
  mean : ℚ
  std : ℚ
  period_keys : List String

/-- Plain insertion sort on strings (sorted(keys)). -/
def insStr (s : String) : List String → List String
  | [] => [s]
  | t :: r => if strLe s t then s :: t :: r else t :: insStr s r

/-- sorted(l) for string lists. -/
def sortStrings (l : List String) : List String := l.foldr insStr []

/-- StatisticalForecaster.__init__. numpy mean is sum over length (on the
empty list numpy yields NaN with a warning; the value is never read because
forecast_normal returns early on an empty key list, and we use 0 over the
rationals). numpy std is an external square root and is kept as a black-box
oracle argument npStd. -/
def mkForecaster (npStd : List ℚ → ℚ) (h : List (String × ℚ)) :
    StatisticalForecaster :=
  let vals := h.map Prod.snd
  ⟨h, vals, vals.sum / (vals.length : ℚ), npStd vals, sortStrings (h.map Prod.fst)⟩

/-- Parse a YYYYQn key: split on the letter Q and int-parse both parts. -/
def parseQuarterKey (p : String) : Option (Int × Int) :=
  match splitOnChar 'Q' p.data with
  | [a, b] =>
    match digitsToInt? a, digitsToInt? b with
    | some y, some q => some (y, q)
    | _, _ => none
  | _ => none

/-- The generation loop of forecast_normal: per step choose the value by mode
(mean, random draw from the oracle, or percentile), apply the compound trend,
advance the period label (year, or quarter with rollover), round to 2
decimals. -/
def fnLoop (mean std std_multiplier trend : ℚ) (mode : String) (isYear : Bool)
    (draws : Nat → ℚ) :
    Nat → Nat → Int → Int → Except String (List (String × ℚ))
  | 0, _, _, _ => Except.ok []
  | n + 1, i, y, q =>
    match (if mode = "mean" then Except.ok mean
           else if mode = "random" then Except.ok (draws i)
           else if mode = "percentile" then Except.ok (mean + std_multiplier * std)
           else Except.error "Unsupported mode") with
    | Except.error e => Except.error e
    | Except.ok v0 =>
      let v := v0 * (1 + trend) ^ i
      let y2 := if isYear then y + 1 else (if q + 1 > 4 then y + 1 else y)
      let q2 := if isYear then q else (if q + 1 > 4 then 1 else q + 1)
      let label := if isYear then toString y2 else toString y2 ++ "Q" ++ toString q2
      match fnLoop mean std std_multiplier trend mode isYear draws n (i + 1) y2 q2 with
      | Except.error e => Except.error e
      | Except.ok rest => Except.ok ((label, round2 v) :: rest)

/-- StatisticalForecaster.forecast_normal. The random draws of numpy are
modelled by the draws oracle (the seed call only fixes the state of that
oracle, so the parameter is value-irrelevant here). Empty historical keys
return the empty map before any other validation, as in the source. -/
def forecast_normal (fc : StatisticalForecaster) (periods : Nat) (mode : String)
    (std_multiplier trend : ℚ) (frequency : String) (random_seed : Option Nat)
    (draws : Nat → ℚ) : Except String (List (String × ℚ)) :=
  match fc.period_keys.getLast? with
  | none => Except.ok []
  | some last_period =>
    if frequency = "year" then
      match digitsToInt? (last_period.data.take 4) with
      | none => Except.error "ValueError: invalid literal for int"
      | some y => fnLoop fc.mean fc.std std_multiplier trend mode true draws periods 1 y 0
    else if frequency = "quarter" then
      match parseQuarterKey last_period with
      | none => Except.error "Historical keys must be in YYYYQn format for quarterly frequency"
      | some yq => fnLoop fc.mean fc.std std_multiplier trend mode false draws periods 1 yq.1 yq.2
    else Except.error "frequency must be year or quarter"

/-- forecast.forecast_rule period_range dict. The outer Option models key
absence, the inner one a key explicitly holding None (the constructor default
stores start 1 and end None). -/
structure PeriodRange where
  startKey : Option Nat
  endKey : Option (Option Nat)
deriving DecidableEq

/-- The default stored by ForecastRule.__init__ when no range is given. -/
def defaultPeriodRange : PeriodRange := ⟨some 1, some none⟩

/-- forecast.forecast_rule.ForecastRule. The params dict is embedded as typed
optional fields, one per key the engine reads; a missing field is a missing
key. The custom function receives and returns the target item (the source
passes the model too; no rule in this development reads it). -/
structure ForecastRule where
  item_name : String
  method : String
  rate? : Option ℚ
  schedule? : Option (List (String × ℚ))
  base_item? : Option String
  margin? : Option ℚ
  value? : Option ℚ
  source_item? : Option String
  stat_method? : Option String
  stat_periods? : Option Nat
  stat_mode? : Option String
  stat_std_multiplier? : Option ℚ
  stat_trend? : Option ℚ
  stat_frequency? : Option String
  stat_seed? : Option Nat
  custom_function : Option (FinancialItem → FinancialItem)
  uses_kpi : Bool
  period_range : PeriodRange

/-- forecast.forecast_model.ForecastModel state read by rule application:
the company, the assumption set, the configured period count and frequency,
and the kpis dict of the attached KPIManager. -/
structure ForecastModel where
  company : Company
  assumptions : List (String × AssumptionValue)
  periods : Nat
  frequency : String
  kpis : List (String × KPIEntry)

/-- External numeric collaborators: the numpy random draw stream and the
numpy std computation. -/
structure Oracles where
  draws : Nat → ℚ
  npStd : List ℚ → ℚ

/-- ForecastModel._parse_period: year and quarter, quarter 0 when annual. -/
def parse_period (p : String) : Option (Int × Int) :=
  if p.data.contains 'Q' then parseQuarterKey p
  else (digitsToInt? p.data).map (fun y => (y, 0))

/-- The applicable-period loop of _apply_rule: for i from 1 to end, always
increment the quarter with rollover into the year, label with the quarter
only when the anchor period is quarterly, and keep labels with start <= i.
(For an annual anchor the year therefore only advances every fourth step,
as in the source.) -/
def buildApplicablePeriods (isQuarterly : Bool) (startP : Nat) :
    Nat → Nat → Int → Int → List String
  | 0, _, _, _ => []
  | n + 1, i, y, q =>
    let q1 := q + 1
    let y2 := if q1 > 4 then y + 1 else y
    let q2 := if q1 > 4 then 1 else q1
    let label := if isQuarterly then toString y2 ++ "Q" ++ toString q2 else toString y2
    let rest := buildApplicablePeriods isQuarterly startP n (i + 1) y2 q2
    if startP ≤ i then label :: rest else rest

/-- {**a, **b}: start from a and assign every entry of b in order. -/
def dictMerge (a b : List (String × ℚ)) : List (String × ℚ) :=
  b.foldl (fun acc kv => dictSet kv.1 kv.2 acc) a

/-- The write-back loop shared by the margin_of, link_to_item and statistical
branches: for every period of the source map that falls in the applicable
set, write source value times factor into the target item. -/
def writeForecastSubset (aps : List String) (src : List (String × ℚ)) (factor : ℚ)
    (it : FinancialItem) : FinancialItem :=
  src.foldl (fun acc pv =>
    if pv.1 ∈ aps then acc.add_forecasted pv.1 (pv.2 * factor) else acc) it

/-- The fixed branch: every applicable period gets the constant. -/
def writeFixed (aps : List String) (v : ℚ) (it : FinancialItem) : FinancialItem :=
  aps.foldl (fun acc p => acc.add_forecasted p v) it

/-- ForecastModel._apply_rule. Match the source order: resolve the target item
(error when absent), read the period range (a present end key holding None
reproduces the TypeError of range(1, None + 1)), take the last historical
period of the target (IndexError on an empty map), parse it, build the
applicable periods, then dispatch on the method tag. A missing required params
key is the corresponding KeyError. The holt-winters, sarima and prophet
statistical methods delegate to fitted statsmodels and prophet models
(external libraries) and are not embedded; no verified claim depends on them.
The uses_kpi flag of the rule is stored but never read, as in the source. -/
def applyRule (m : ForecastModel) (rule : ForecastRule) (ora : Oracles) :
    Except String Company :=
  match m.company.findItemTagged rule.item_name with
  | none => Except.error "FinancialItem not found"
  | some ti =>
    let startP := rule.period_range.startKey.getD 1
    let endResolved : Option Nat :=
      match rule.period_range.endKey with
      | none => some m.periods
      | some e => e
    match maxKey ti.2.historical with
    | none => Except.error "IndexError: list index out of range"
    | some last_hist =>
      match parse_period last_hist with
      | none => Except.error "ValueError: invalid literal for int"
      | some yq =>
        match endResolved with
        | none => Except.error "TypeError: unsupported operand types NoneType and int"
        | some endP =>
          let aps := buildApplicablePeriods (last_hist.data.contains 'Q') startP endP 1 yq.1 yq.2
          if rule.method = "statistical" then
            let fc := mkForecaster ora.npStd (dictMerge ti.2.historical ti.2.forecasted)
            let sm := rule.stat_method?.getD "normal"
            if sm = "normal" then
              match rule.stat_periods? with
              | none => Except.error "TypeError: missing required argument periods"
              | some np =>
                match forecast_normal fc np (rule.stat_mode?.getD "mean")
                    ((rule.stat_std_multiplier?).getD 1) ((rule.stat_trend?).getD 0)
                    ((rule.stat_frequency?).getD "year") rule.stat_seed? ora.draws with
                | Except.error e => Except.error e
                | Except.ok fdict =>
                    Except.ok (m.company.setItemAt ti.1 rule.item_name
                      (writeForecastSubset aps fdict 1 ti.2))
            else if sm = "holt_winters" || sm = "sarima" || sm = "prophet" then
              Except.error "external statistical library fit not embedded"
            else Except.error "Unknown statistical method"
          else if rule.method = "growth_rate" then
            match ti.2.forecast_growth rule.rate? (rule.schedule?.getD []) m.periods m.frequency with
            | Except.error e => Except.error e
            | Except.ok it2 => Except.ok (m.company.setItemAt ti.1 rule.item_name it2)
          else if rule.method = "margin_of" then
            match rule.base_item? with
            | none => Except.error "KeyError: base_item"
            | some bn =>
              match rule.margin? with
              | none => Except.error "KeyError: margin"
              | some mg =>
                match m.company.findItem bn with
                | some base =>
                    Except.ok (m.company.setItemAt ti.1 rule.item_name
                      (writeForecastSubset aps base.forecasted mg ti.2))
                | none => Except.ok m.company
          else if rule.method = "fixed" then
            match rule.value? with
            | none => Except.error "KeyError: value"
            | some v =>
                Except.ok (m.company.setItemAt ti.1 rule.item_name (writeFixed aps v ti.2))
          else if rule.method = "link_to_item" then
            match rule.source_item? with
            | none => Except.error "KeyError: source_item"
            | some sn =>
              match rule.rate? with
              | none => Except.error "KeyError: rate"
              | some rt =>
                match m.company.findItem sn with
                | some src =>
                    Except.ok (m.company.setItemAt ti.1 rule.item_name
                      (writeForecastSubset aps src.forecasted rt ti.2))
                | none => Except.ok m.company
          else if rule.method = "custom_function" then
            match rule.custom_function with
            | some f => Except.ok (m.company.setItemAt ti.1 rule.item_name (f ti.2))
            | none => Except.error "Custom function missing"
          else Except.error "Unknown method"

/-- The company of the repository test test_run_forecast: one income item
Revenue with historical 2023 = 1000. -/
def c3Company : Company :=
  ⟨"TestCo", "TCO", "USD", none,
    [("Revenue", ⟨"Revenue", FinancialItemType.revenue, [("2023", 1000)], []⟩)],
    [], [], [], []⟩

/-- The rule of test_run_forecast: growth_rate with rate 0.1 and no explicit
period range, so the stored range is the constructor default start 1, end None. -/
def c3Rule : ForecastRule :=
  ⟨"Revenue", "growth_rate", some (1/10), none, none, none, none, none,
    none, none, none, none, none, none, none, none, false, defaultPeriodRange⟩

/-- C3: a rule constructed without an explicit period range should default the
end of the applicable period set to the configured model periods and apply
successfully. Instead the stored range holds an explicit None end, the dict
get with default returns that None, and range(1, None + 1) raises a TypeError
before any method dispatch, on exactly the input of the repository test
test_run_forecast (which expects success). -/
theorem C3_default_period_range_raises :
    applyRule ⟨c3Company, [], 3, "Annual", []⟩ c3Rule ⟨fun _ => 0, fun _ => 0⟩ =
      Except.error "TypeError: unsupported operand types NoneType and int" := rfl

/-- C4 counterexample setup: the model defines a KPI named NPM, no financial
item of that name exists. -/
def c4Company : Company :=
  ⟨"TestCo", "TCO", "USD", none,
    [("Revenue", ⟨"Revenue", FinancialItemType.revenue, [("2023", 1000)], []⟩)],
    [], [], [], []⟩

/-- The defined KPI registry for the C4 counterexample. -/
def c4Kpis : List (String × KPIEntry) :=
  [("NPM", KPIEntry.formula (Expr.divE (Expr.var "NetProfit") (Expr.var "Revenue")))]

/-- A uses_kpi rule naming the defined KPI NPM, with a fixed-method payload
and an explicit period range. -/
def c4Rule : ForecastRule :=
  ⟨"NPM", "fixed", none, none, none, none, some 5, none, none, none, none,
    none, none, none, none, none, true, ⟨some 1, some (some 2)⟩⟩

/-- C4 counterexample: applying a uses_kpi rule that names a defined KPI does
not evaluate the KPI and write adjusted products into a target item; rule
application resolves item_name as a financial item, finds none, and fails. -/
theorem C4_kpi_rule_counterexample :
    applyRule ⟨c4Company, [], 5, "Annual", c4Kpis⟩ c4Rule ⟨fun _ => 0, fun _ => 0⟩ =
      Except.error "FinancialItem not found" := rfl

/-- C4 amended: the uses_kpi flag is stored on the rule but ignored by rule
application, which dispatches purely on the method tag and resolves item_name
as a financial item; when no item of that name exists in any statement the
application fails with the item lookup error (no KPI evaluation, no
adjustment-factor multiplication occurs anywhere in the engine). -/
theorem C4_uses_kpi_ignored (m : ForecastModel) (ora : Oracles)
    (n mth : String) (r : Option ℚ) (sch : Option (List (String × ℚ)))
    (bi : Option String) (mg vv : Option ℚ) (si smeth : Option String)
    (sp : Option Nat) (smo : Option String) (sstd strd : Option ℚ)
    (sfr : Option String) (ssd : Option Nat)
    (cf : Option (FinancialItem → FinancialItem)) (b1 b2 : Bool) (pr : PeriodRange)
    (hnone : m.company.findItemTagged n = none) :
    applyRule m ⟨n, mth, r, sch, bi, mg, vv, si, smeth, sp, smo, sstd, strd, sfr, ssd, cf, b1, pr⟩ ora =
      applyRule m ⟨n, mth, r, sch, bi, mg, vv, si, smeth, sp, smo, sstd, strd, sfr, ssd, cf, b2, pr⟩ ora ∧
    applyRule m ⟨n, mth, r, sch, bi, mg, vv, si, smeth, sp, smo, sstd, strd, sfr, ssd, cf, b1, pr⟩ ora =
      Except.error "FinancialItem not found" := by
  constructor
  · rfl
  · simp only [applyRule, hnone]

/-- C4 amended, witness: instantiated at the concrete KPI-naming rule of the
counterexample, with both flag values. -/
theorem C4_uses_kpi_ignored_witness :
    applyRule ⟨c4Company, [], 5, "Annual", c4Kpis⟩
        ⟨"NPM", "fixed", none, none, none, none, some 5, none, none, none, none,
          none, none, none, none, none, true, ⟨some 1, some (some 2)⟩⟩
        ⟨fun _ => 0, fun _ => 0⟩ =
      applyRule ⟨c4Company, [], 5, "Annual", c4Kpis⟩
        ⟨"NPM", "fixed", none, none, none, none, some 5, none, none, none, none,
          none, none, none, none, none, false, ⟨some 1, some (some 2)⟩⟩
        ⟨fun _ => 0, fun _ => 0⟩ :=
  (C4_uses_kpi_ignored ⟨c4Company, [], 5, "Annual", c4Kpis⟩ ⟨fun _ => 0, fun _ => 0⟩
    "NPM" "fixed" none none none none (some 5) none none none none none none
    none none none true false ⟨some 1, some (some 2)⟩ (by decide)).1

/-- C6 counterexample setup: Gross_Profit exists with historical data, the
named base item Revenue exists in no statement. -/
def c6Company : Company :=
  ⟨"TestCo", "TCO", "USD", none,
    [("Gross_Profit", ⟨"Gross_Profit", FinancialItemType.result, [("2023", 500)], []⟩)],
    [], [], [], []⟩

/-- A margin_of rule whose base item Revenue is not present anywhere. -/
def c6Rule : ForecastRule :=
  ⟨"Gross_Profit", "margin_of", none, none, some "Revenue", some (3/10), none,
    none, none, none, none, none, none, none, none, none, false,
    ⟨some 1, some (some 3)⟩⟩

/-- C6 counterexample: a margin_of rule whose base item is found in no
statement completes without any error and returns the company unchanged,
instead of raising a lookup error as the claim states. -/
theorem C6_missing_base_counterexample :
    applyRule ⟨c6Company, [], 5, "Annual", []⟩ c6Rule ⟨fun _ => 0, fun _ => 0⟩ =
      Except.ok c6Company := rfl

/-- C6 amended: when a margin_of or link_to_item rule names a base or source
item that no statement contains, rule application silently skips the write
loop and succeeds with the company unchanged; no lookup error is raised (only
the target item itself is checked). -/
theorem C6_missing_base_item_skips (m : ForecastModel) (rule : ForecastRule)
    (ora : Oracles) (tag : StatementKind) (item : FinancialItem) (bn : String)
    (mg : ℚ) (lp : String) (yq : Int × Int) (e : Nat)
    (hfind : m.company.findItemTagged rule.item_name = some (tag, item))
    (hmaxk : maxKey item.historical = some lp)
    (hparse : parse_period lp = some yq)
    (hend : rule.period_range.endKey = some (some e))
    (hcase :
      (rule.method = "margin_of" ∧ rule.base_item? = some bn ∧
        rule.margin? = some mg ∧ m.company.findItem bn = none) ∨
      (rule.method = "link_to_item" ∧ rule.source_item? = some bn ∧
        rule.rate? = some mg ∧ m.company.findItem bn = none)) :
    applyRule m rule ora = Except.ok m.company := by
  rcases hcase with ⟨hm, hb, hg, hn⟩ | ⟨hm, hb, hg, hn⟩ <;>
    simp [applyRule, hfind, hmaxk, hparse, hend, hm, hb, hg, hn]

/-- C6 amended, witness: the concrete counterexample company and rule satisfy
all hypotheses of the amended statement (margin_of side). -/
theorem C6_missing_base_item_skips_witness :
    applyRule ⟨c6Company, [], 5, "Annual", []⟩ c6Rule ⟨fun _ => 0, fun _ => 0⟩ =
      Except.ok c6Company :=
  C6_missing_base_item_skips ⟨c6Company, [], 5, "Annual", []⟩ c6Rule
    ⟨fun _ => 0, fun _ => 0⟩ StatementKind.income
    ⟨"Gross_Profit", FinancialItemType.result, [("2023", 500)], []⟩
    "Revenue" (3/10) "2023" (2023, 0) 3
    (by decide) (by decide) (by decide) (by decide)
    (Or.inl ⟨rfl, rfl, rfl, by decide⟩)

/-- C8: forecast_normal on a forecaster built from an empty historical series
returns the empty map for every requested period count, mode, multiplier,
trend, frequency and seed (and for every behavior of the external numpy
oracles), and never errors: the empty check precedes all other validation. -/
theorem C8_empty_history_forecast_normal (npStd : List ℚ → ℚ) (periods : Nat)
    (mode : String) (stdm trend : ℚ) (freq : String) (seed : Option Nat)
    (draws : Nat → ℚ) :
    forecast_normal (mkForecaster npStd []) periods mode stdm trend freq seed draws =
      Except.ok [] := rfl

/-- Insert into a sorted list of distinct strings (sorted(set(...))). -/
def insertStrDedup (s : String) : List String → List String
  | [] => [s]
  | t :: rest =>
    if s = t then t :: rest
    else if strLt s t then s :: t :: rest
    else t :: insertStrDedup s rest

/-- sorted(set(l)): sorted deduplicated string list. -/
def dedupSortStrings (l : List String) : List String :=
  l.foldl (fun acc s => insertStrDedup s acc) []

/-- The period universe of a formula KPI: the union of historical and
forecasted periods of every referenced line item that resolves. -/
def kpiPeriodUniverse (c : Company) (e : Expr) : List String :=
  (exprVars e).foldl (fun acc v =>
    match c.findItem v with
    | some it => acc ++ it.historical.map Prod.fst ++ it.forecasted.map Prod.fst
    | none => acc) []

/-- The periods iterated by the per-period-callable path of calculate_kpi:
all historical and forecasted periods of the income, balance and cash flow
statements. -/
def allStatementPeriods (c : Company) : List String :=
  (c.income ++ c.balance ++ c.cashflow).foldl (fun acc kv =>
    acc ++ kv.2.historical.map Prod.fst ++ kv.2.forecasted.map Prod.fst) []

/-- The variable environment of one evaluation period: a resolved item
contributes its get_value with default 0; an unresolved identifier token never
parses as a float, so the fallback is 0 (a token literally spelled like a
float such as nan would parse in Python; no identifier in this development
does). -/
def kpiEnv (c : Company) (period : String) (v : String) : ℚ :=
  match c.findItem v with
  | some it => (it.get_value period).getD 0
  | none => 0

/-- KPIManager.calculate_kpi. An undefined name is an error (the source also
treats a falsy stored formula, the empty string, as undefined; an expression
tree is never empty). On the formula path every period of the universe
receives an entry: the rounded value, or None when the evaluation raised
ZeroDivisionError. On the callable path a None result produces no entry while
a raised exception produces a None entry, as in the source. -/
def calculate_kpi (c : Company) (kpis : List (String × KPIEntry)) (kpi_name : String) :
    Except String (List (String × Option ℚ)) :=
  match lookupA kpi_name kpis with
  | none => Except.error "KPI is not defined"
  | some (KPIEntry.perPeriod f) =>
    let periods := dedupSortStrings (allStatementPeriods c)
    Except.ok (periods.filterMap (fun p =>
      match f p with
      | Except.ok none => none
      | Except.ok (some r) => some (p, some (round3 r))
      | Except.error _ => some (p, none)))
  | some (KPIEntry.formula e) =>
    let periods := dedupSortStrings (kpiPeriodUniverse c e)
    Except.ok (periods.map (fun p =>
      match evalExpr (kpiEnv c p) e with
      | Except.ok r => (p, some (round3 r))
      | Except.error _ => (p, none)))

theorem lookupA_map_of_mem {α : Type} (g : String → α) :
    ∀ (l : List String) (p : String), p ∈ l →
      lookupA p (l.map (fun q => (q, g q))) = some (g p) := by
  intro l
  induction l with
  | nil => intro p hp; cases hp
  | cons q rest ih =>
    intro p hp
    by_cases hpq : p = q
    · subst hpq; simp [lookupA]
    · rcases List.mem_cons.mp hp with h | h
      · exact absurd h hpq
      · simp only [List.map, lookupA, if_neg hpq]
        exact ih p h

/-- C5 counterexample setup: items A (2023 value 1) and B (2023 value 0) and
the formula KPI K = A / B, which divides by zero in period 2023. -/
def c5Company : Company :=
  ⟨"TestCo", "TCO", "USD", none,
    [("A", ⟨"A", FinancialItemType.revenue, [("2023", 1)], []⟩),
     ("B", ⟨"B", FinancialItemType.revenue, [("2023", 0)], []⟩)],
    [], [], [], []⟩

/-- The KPI registry of the C5 counterexample. -/
def c5Kpis : List (String × KPIEntry) :=
  [("K", KPIEntry.formula (Expr.divE (Expr.var "A") (Expr.var "B")))]

/-- C5 counterexample: when the formula divides by zero in period 2023, that
period is not excluded from the result map: calculate_kpi returns a map in
which the key 2023 is present and bound to None. -/
theorem C5_division_by_zero_counterexample :
    calculate_kpi c5Company c5Kpis "K" = Except.ok [("2023", none)] ∧
      lookupA "2023" [("2023", (none : Option ℚ))] ≠ none := by
  constructor
  · rfl
  · decide

/-- C5 amended: for a formula KPI, a period whose evaluation raises division
by zero does not abort the computation: calculate_kpi still succeeds, the
offending period appears in the final map bound to None, and every other
period of the universe still receives its rounded value. -/
theorem C5_division_by_zero_yields_none (c : Company) (kpis : List (String × KPIEntry))
    (kname : String) (e : Expr) (p : String)
    (hdef : lookupA kname kpis = some (KPIEntry.formula e))
    (hp : p ∈ dedupSortStrings (kpiPeriodUniverse c e)) :
    ∃ res, calculate_kpi c kpis kname = Except.ok res ∧
      (∀ msg, evalExpr (kpiEnv c p) e = Except.error msg → lookupA p res = some none) ∧
      (∀ r, evalExpr (kpiEnv c p) e = Except.ok r → lookupA p res = some (some (round3 r))) := by
  refine ⟨(dedupSortStrings (kpiPeriodUniverse c e)).map (fun q =>
      match evalExpr (kpiEnv c q) e with
      | Except.ok r => (q, some (round3 r))
      | Except.error _ => (q, none)), ?_, ?_, ?_⟩
  · simp [calculate_kpi, hdef]
  · intro msg hmsg
    have := lookupA_map_of_mem (fun q =>
      match evalExpr (kpiEnv c q) e with
      | Except.ok r => some (round3 r)
      | Except.error _ => none) (dedupSortStrings (kpiPeriodUniverse c e)) p hp
    simp only [hmsg] at this
    rw [← this]
    congr 1
    apply List.map_congr_left
    intro q _
    cases evalExpr (kpiEnv c q) e <;> rfl
  · intro r hr
    have := lookupA_map_of_mem (fun q =>
      match evalExpr (kpiEnv c q) e with
      | Except.ok r => some (round3 r)
      | Except.error _ => none) (dedupSortStrings (kpiPeriodUniverse c e)) p hp
    simp only [hr] at this
    rw [← this]
    congr 1
    apply List.map_congr_left
    intro q _
    cases evalExpr (kpiEnv c q) e <;> rfl

/-- C5 amended, witness: on the concrete division-by-zero company the period
2023 is present and bound to None. -/
theorem C5_division_by_zero_yields_none_witness :
    ∃ res, calculate_kpi c5Company c5Kpis "K" = Except.ok res ∧
      lookupA "2023" res = some none := by
  obtain ⟨res, hok, hnone, _⟩ := C5_division_by_zero_yields_none c5Company c5Kpis "K"
    (Expr.divE (Expr.var "A") (Expr.var "B")) "2023" rfl (by decide)
  exact ⟨res, hok, hnone "ZeroDivisionError" rfl⟩

/-- DividendDiscountModel._find_item: income, balance and cash flow only. -/
def ddmFindItem (c : Company) (n : String) : Option FinancialItem :=
  match lookupA n c.income with
  | some it => some it
  | none =>
  match lookupA n c.balance with
  | some it => some it
  | none => lookupA n c.cashflow

/-- Step 1 of calculate_value: project dividends for the first periods of the
forecasted map (every key lookup hits, so the None guard never skips). -/
def projectDividends (fps : List String) (fc : List (String × ℚ)) (payout : ℚ) :
    List (String × ℚ) :=
  fps.foldl (fun acc p =>
    match lookupA p fc with
    | some bv => dictSet p (bv * payout) acc
    | none => acc) []

/-- Step 2 of calculate_value: discount each dividend by (1+r)^i with i
counted from 1 in map order; a float division error propagates immediately. -/
def pvFold (r : ℚ) : Nat → List (String × ℚ) → Except String ℚ
  | _, [] => Except.ok 0
  | i, pv :: rest =>
    match pydiv pv.2 ((1 + r) ^ i) with
    | Except.error e => Except.error e
    | Except.ok x =>
      match pvFold r (i + 1) rest with
      | Except.error e => Except.error e
      | Except.ok s => Except.ok (x + s)

/-- DividendDiscountModel.calculate_value: project dividends over the first
configured periods of the base item, discount them, then add the discounted
terminal value computed from the final projected period (Python negative
indexing reads the last key when min(periods, len) is zero; an empty
forecasted map is the IndexError of the source). -/
def calculate_value (c : Company) (base_name : String)
    (discount_rate payout tgrowth : ℚ) (periods : Nat) : Except String ℚ :=
  match ddmFindItem c base_name with
  | none => Except.error "Base item not found for dividend calculation"
  | some item =>
    let fps := item.forecasted.map Prod.fst
    let divs := projectDividends (fps.take periods) item.forecasted payout
    match pvFold discount_rate 1 divs with
    | Except.error e => Except.error e
    | Except.ok pv =>
      match fps with
      | [] => Except.error "IndexError: list index out of range"
      | _ :: _ =>
        let kk := min periods fps.length
        let final_year := if kk = 0 then fps.getLastD "" else fps.getD (kk - 1) ""
        let final_base := (lookupA final_year item.forecasted).getD 0
        let final_dividend := final_base * payout
        match pydiv (final_dividend * (1 + tgrowth)) (discount_rate - tgrowth) with
        | Except.error e => Except.error e
        | Except.ok tv =>
          match pydiv tv ((1 + discount_rate) ^ periods) with
          | Except.error e => Except.error e
          | Except.ok tpv => Except.ok (pv + tpv)

/-- C7: for a dividend discount model with one configured period whose base
item has exactly one forecasted period with value B, payout ratio p, discount
rate r and terminal growth g with r distinct from g (and 1+r nonzero so the
discounting division is defined), the computed total is
B p/(1+r) + (B p (1+g)/(r-g))/(1+r). -/
theorem C7_ddm_single_period (c : Company) (bn p : String) (it : FinancialItem)
    (B r g payout : ℚ)
    (hfind : ddmFindItem c bn = some it)
    (hfc : it.forecasted = [(p, B)])
    (hr : (1 : ℚ) + r ≠ 0)
    (hrg : r ≠ g) :
    calculate_value c bn r payout g 1 =
      Except.ok (B * payout / (1 + r) + (B * payout * (1 + g) / (r - g)) / (1 + r)) := by
  have hrg' : r - g ≠ 0 := sub_ne_zero.mpr hrg
  simp only [calculate_value, hfind, hfc, List.map, List.take, projectDividends,
    List.foldl, lookupA, if_pos rfl, dictSet, pvFold, pydiv, pow_one, if_neg hr,
    List.length, min_self, Option.getD_some]
  norm_num [List.getD, if_neg hrg', if_neg hr, lookupA]

/-- C7 setup for the witness: one income item with a single forecasted period. -/
def c7Company : Company :=
  ⟨"TestCo", "TCO", "USD", none,
    [("NetIncome", ⟨"NetIncome", FinancialItemType.result, [("2023", 90)],
        [("2024", 100)]⟩)],
    [], [], [], []⟩

/-- C7 witness: B = 100, r = 1/10, g = 1/50, payout = 1/2, periods = 1. -/
theorem C7_ddm_single_period_witness :
    calculate_value c7Company "NetIncome" (1/10) (1/2) (1/50) 1 =
      Except.ok (100 * (1/2) / (1 + 1/10) +
        (100 * (1/2) * (1 + 1/50) / (1/10 - 1/50)) / (1 + 1/10)) :=
  C7_ddm_single_period c7Company "NetIncome" "2024"
    ⟨"NetIncome", FinancialItemType.result, [("2023", 90)], [("2024", 100)]⟩
    100 (1/10) (1/50) (1/2) (by decide) (by decide) (by norm_num) (by norm_num)

/-- The serialized form of one line item in the JSON document: the kind value
string and the two period maps in sorted order. -/
structure ItemDoc where
  typeStr : String
  historical : List (String × ℚ)
  forecasted : List (String × ℚ)
deriving DecidableEq

/-- The JSON document written by Company.save_to_json (Company.to_dict). The
json.dump and json.load text layer round-trips this structure verbatim and is
not re-modelled. -/
structure CompanyDoc where
  name : String
  ticker : String
  currency : String
  description : Option String
  income : List (String × ItemDoc)
  balance : List (String × ItemDoc)
  cashflow : List (String × ItemDoc)
  kpiSt : List (String × ItemDoc)
  otherSt : List (String × ItemDoc)
deriving DecidableEq

/-- Company._statement_to_dict. -/
def statement_to_dict (st : List (String × FinancialItem)) : List (String × ItemDoc) :=
  st.map (fun kv =>
    (kv.1, ⟨kv.2.item_type.value, sortByKey kv.2.historical, sortByKey kv.2.forecasted⟩))

/-- Company.to_dict. -/
def Company.to_dict (c : Company) : CompanyDoc :=
  ⟨c.name, c.ticker, c.currency, c.description,
    statement_to_dict c.income, statement_to_dict c.balance,
    statement_to_dict c.cashflow, statement_to_dict c.kpiSt,
    statement_to_dict c.otherSt⟩

/-- The income loop of Company._load_from_dict: rebuild each item through the
FinancialItem constructor (which sanitizes the name), assign the serialized
maps directly, and add_item into the income statement. An unknown kind string
is the ValueError of the enum constructor. -/
def loadIncomeItems : List (String × ItemDoc) → List (String × FinancialItem) →
    Except String (List (String × FinancialItem))
  | [], st => Except.ok st
  | (n, idoc) :: rest, st =>
    match FinancialItemType.ofValue idoc.typeStr with
    | none => Except.error "ValueError: not a valid FinancialItemType"
    | some t =>
      let base := mkFinancialItem n t [] []
      let item : FinancialItem := ⟨base.name, base.item_type, idoc.historical, idoc.forecasted⟩
      loadIncomeItems rest (dictSet item.name item st)

/-- Company._load_from_dict: restore identity fields and reload the income
statement (the source only reloads the income subtree). -/
def Company.load_from_dict (d : CompanyDoc) (c : Company) : Except String Company :=
  match loadIncomeItems d.income c.income with
  | Except.error e => Except.error e
  | Except.ok items =>
    Except.ok ⟨d.name, d.ticker, d.currency, d.description, items,
      c.balance, c.cashflow, c.kpiSt, c.otherSt⟩

/-- The construction invariant of a stored line item: it sits under its own
(already sanitized) name and its maps are in sorted order. Every item built
through the constructors and mutators of the API satisfies this. -/
def itemWF (key : String) (it : FinancialItem) : Prop :=
  it.name = key ∧ sanitize_item_name key = key ∧
    sortByKey it.historical = it.historical ∧ sortByKey it.forecasted = it.forecasted

/-- The construction invariant of a statement: well-formed items under
pairwise distinct keys (Python dict keys are unique). -/
def statementWF (st : List (String × FinancialItem)) : Prop :=
  (∀ kv ∈ st, itemWF kv.1 kv.2) ∧ (st.map Prod.fst).Nodup

instance (key : String) (it : FinancialItem) : Decidable (itemWF key it) := by
  unfold itemWF; infer_instance

instance (st : List (String × FinancialItem)) : Decidable (statementWF st) := by
  unfold statementWF; infer_instance

theorem FinancialItemType.ofValue_value (t : FinancialItemType) :
    FinancialItemType.ofValue t.value = some t := by
  cases t <;> rfl

theorem dictSet_not_mem {α : Type} (k : String) (v : α) :
    ∀ l : List (String × α), k ∉ l.map Prod.fst → dictSet k v l = l ++ [(k, v)] := by
  intro l
  induction l with
  | nil => intro _; rfl
  | cons kv rest ih =>
    intro hk
    have hne : kv.1 ≠ k := fun h => hk (by simp [h])
    have hkrest : k ∉ rest.map Prod.fst := fun h => hk (by simp [h])
    simp only [dictSet, if_neg hne, List.cons_append, List.cons.injEq, true_and]
    exact ih hkrest


theorem loadIncomeItems_roundtrip :
    ∀ (st acc : List (String × FinancialItem)),
      (∀ kv ∈ st, itemWF kv.1 kv.2) →
      (st.map Prod.fst).Nodup →
      (∀ k ∈ st.map Prod.fst, k ∉ acc.map Prod.fst) →
      loadIncomeItems (statement_to_dict st) acc = Except.ok (acc ++ st) := by
  intro st
  induction st with
  | nil => intro acc _ _ _; simp [statement_to_dict, loadIncomeItems]
  | cons kv rest ih =>
    rcases kv with ⟨k, it⟩
    rcases it with ⟨nm, tp, hi, fo⟩
    intro acc hwf hnd hdisj
    obtain ⟨hname, hsan, hsh, hsf⟩ := hwf (k, ⟨nm, tp, hi, fo⟩) (List.mem_cons_self _ _)
    simp only at hname hsan hsh hsf
    subst hname
    simp only [statement_to_dict, List.map_cons, loadIncomeItems,
      FinancialItemType.ofValue_value, mkFinancialItem]
    rw [hsan, hsh, hsf]
    have hk_acc : nm ∉ acc.map Prod.fst := hdisj nm (by simp)
    rw [dictSet_not_mem nm _ acc hk_acc]
    simp only [List.map_cons] at hnd
    have hnd' := List.nodup_cons.mp hnd
    have hstep := ih (acc ++ [(nm, (⟨nm, tp, hi, fo⟩ : FinancialItem))])
      (fun kv h => hwf kv (List.mem_cons_of_mem _ h))
      hnd'.2
      (by
        intro k' hk'
        rw [List.map_append]
        intro hmem
        rcases List.mem_append.mp hmem with h | h
        · exact hdisj k' (by simp [hk']) h
        · simp only [List.map_cons, List.map_nil, List.mem_singleton] at h
          exact hnd'.1 (h ▸ hk'))
    simp only [statement_to_dict] at hstep
    rw [hstep, List.append_assoc, List.singleton_append]

/-- C9: saving a company to the JSON document form and loading that document
back into a fresh company preserves name, ticker and currency and restores the
income statement items exactly (kind, historical map and forecasted map),
under the construction invariant that stored items sit under their own
sanitized names with sorted maps and distinct keys. -/
theorem C9_json_round_trip (c : Company) (nm tk cur : String) (dsc : Option String)
    (hwf : statementWF c.income) :
    Company.load_from_dict (Company.to_dict c) ⟨nm, tk, cur, dsc, [], [], [], [], []⟩ =
      Except.ok ⟨c.name, c.ticker, c.currency, c.description, c.income, [], [], [], []⟩ := by
  obtain ⟨hitems, hnd⟩ := hwf
  simp only [Company.load_from_dict, Company.to_dict]
  rw [loadIncomeItems_roundtrip c.income [] hitems hnd (by intro k _ h; cases h)]
  rfl

/-- C9 witness: a concrete two-item income statement round-trips exactly. -/
theorem C9_json_round_trip_witness :
    Company.load_from_dict
        (Company.to_dict
          ⟨"Acme", "ACM", "USD", some "widgets",
            [("Revenue", ⟨"Revenue", FinancialItemType.revenue,
                [("2022", 900), ("2023", 1000)], [("2024", 1100)]⟩),
             ("NetProfit", ⟨"NetProfit", FinancialItemType.result,
                [("2023", 200)], []⟩)],
            [], [], [], []⟩)
        ⟨"", "", "", none, [], [], [], [], []⟩ =
      Except.ok
        ⟨"Acme", "ACM", "USD", some "widgets",
          [("Revenue", ⟨"Revenue", FinancialItemType.revenue,
              [("2022", 900), ("2023", 1000)], [("2024", 1100)]⟩),
           ("NetProfit", ⟨"NetProfit", FinancialItemType.result,
              [("2023", 200)], []⟩)],
          [], [], [], []⟩ :=
  C9_json_round_trip
    ⟨"Acme", "ACM", "USD", some "widgets",
      [("Revenue", ⟨"Revenue", FinancialItemType.revenue,
          [("2022", 900), ("2023", 1000)], [("2024", 1100)]⟩),
       ("NetProfit", ⟨"NetProfit", FinancialItemType.result,
          [("2023", 200)], []⟩)],
      [], [], [], []⟩
    "" "" "" none
    (by
      refine ⟨?_, by decide⟩
      intro kv h
      simp only [List.mem_cons, List.not_mem_nil, or_false] at h
      rcases h with rfl | rfl
      · exact ⟨rfl, rfl, rfl, rfl⟩
      · exact ⟨rfl, rfl, rfl, rfl⟩)

/-- The default FinancialItem used for out-of-range store reads (never hit
under the validity hypothesis of the scenario theorems). -/
def defaultFinItem : FinancialItem := ⟨"", FinancialItemType.other, [], []⟩

/-- The heap of line-item objects: scenario cloning is about object identity,
so line items live in a store and companies hold references (indices). -/
abbrev Store := List FinancialItem

/-- A Company as an object graph: identity fields plus, per statement, an
insertion-ordered map from item name to the store index of the item object. -/
structure CompanyRef where
  name : String
  ticker : String
  currency : String
  description : Option String
  incomeIds : List (String × Nat)
  balanceIds : List (String × Nat)
  cashflowIds : List (String × Nat)
  kpiIds : List (String × Nat)
  otherIds : List (String × Nat)

/-- The store indices of every line item a company references. -/
def companyIds (c : CompanyRef) : List Nat :=
  (c.incomeIds ++ c.balanceIds ++ c.cashflowIds ++ c.kpiIds ++ c.otherIds).map Prod.snd

/-- copy.deepcopy over one statement: each referenced item is copied by value
into a fresh cell appended at the end of the store, and the clone references
the fresh cell. (deepcopy memoization of shared subobjects is not modelled;
no claim concerns aliased items.) -/
def copyItems : List (String × Nat) → Store → (List (String × Nat) × Store)
  | [], s => ([], s)
  | (n, i) :: rest, s =>
    let it := s.getD i defaultFinItem
    let res := copyItems rest (s ++ [it])
    ((n, s.length) :: res.1, res.2)

/-- copy.deepcopy of the whole Company: all five statements, all line items. -/
def deepcopyCompany (c : CompanyRef) (s : Store) : CompanyRef × Store :=
  let r1 := copyItems c.incomeIds s
  let r2 := copyItems c.balanceIds r1.2
  let r3 := copyItems c.cashflowIds r2.2
  let r4 := copyItems c.kpiIds r3.2
  let r5 := copyItems c.otherIds r4.2
  (⟨c.name, c.ticker, c.currency, c.description, r1.1, r2.1, r3.1, r4.1, r5.1⟩, r5.2)

/-- In-place mutation of the line item object at a store index. -/
def mutateItem (s : Store) (i : Nat) (f : FinancialItem → FinancialItem) : Store :=
  List.set s i (f (s.getD i defaultFinItem))

/-- Read a referenced statement into the value-level Company used by the
valuation model. -/
def materializeStatement (s : Store) (ids : List (String × Nat)) :
    List (String × FinancialItem) :=
  ids.map (fun kv => (kv.1, s.getD kv.2 defaultFinItem))

/-- Read a CompanyRef into the value-level Company. -/
def materialize (c : CompanyRef) (s : Store) : Company :=
  ⟨c.name, c.ticker, c.currency, c.description,
    materializeStatement s c.incomeIds, materializeStatement s c.balanceIds,
    materializeStatement s c.cashflowIds, materializeStatement s c.kpiIds,
    materializeStatement s c.otherIds⟩

/-- The result row of ScenarioModel.run_scenario. -/
structure ScenarioResult where
  label : String
  intrinsicTotal : ℚ
  intrinsicPerShare : ℚ
  marginOfSafety : Option ℚ
deriving DecidableEq

/-- scenario.scenario_model.ScenarioModel parameters. -/
structure ScenarioModel where
  shares_outstanding : ℚ
  market_price : Option ℚ
  periods : Nat
  frequency : String
  payout : ℚ
  base_item_for_dividends : String
  terminal_growth_rate : ℚ
  discount_rate : ℚ

/-- Steps 2 to 4 of run_scenario: fresh valuation model over the clone, total
and per-share intrinsic value, margin of safety only under a truthy market
price (a price of 0.0 is falsy and yields None). Pure reads: the store is
untouched. -/
def scenarioValuation (sm : ScenarioModel) (comp : Company) (label : String) :
    Except String ScenarioResult :=
  match calculate_value comp sm.base_item_for_dividends sm.discount_rate sm.payout
      sm.terminal_growth_rate sm.periods with
  | Except.error e => Except.error e
  | Except.ok total =>
    match pydiv total sm.shares_outstanding with
    | Except.error e => Except.error e
    | Except.ok per =>
      let mos := match sm.market_price with
        | none => none
        | some mp => if mp = 0 then none else some ((per - mp) / mp)
      Except.ok ⟨label, total, per, mos⟩

/-- ScenarioModel.run_scenario: deep-copy the company, then run the forecast
model shell and valuation against the clone. The forecast model is rebuilt
with no rules attached, so no rule application mutates anything; the only
store effect of the whole call is the allocation performed by the deep copy. -/
def run_scenario (sm : ScenarioModel) (c : CompanyRef) (s : Store) (label : String) :
    Except String ScenarioResult × Store :=
  let cloned := deepcopyCompany c s
  (scenarioValuation sm (materialize cloned.1 cloned.2) label, cloned.2)

theorem copyItems_getD_low (d : FinancialItem) :
    ∀ (l : List (String × Nat)) (s : Store) (k : Nat), k < s.length →
      (copyItems l s).2.getD k d = s.getD k d := by
  intro l
  induction l with
  | nil => intro s k _; rfl
  | cons p rest ih =>
    rcases p with ⟨n, i⟩
    intro s k hk
    simp only [copyItems]
    have hlen : k < (s ++ [s.getD i defaultFinItem]).length := by
      rw [List.length_append]; omega
    rw [ih (s ++ [s.getD i defaultFinItem]) k hlen]
    simp only [List.getD]
    rw [List.get?_append hk]

theorem copyItems_length_le :
    ∀ (l : List (String × Nat)) (s : Store), s.length ≤ (copyItems l s).2.length := by
  intro l
  induction l with
  | nil => intro s; exact Nat.le_refl _
  | cons p rest ih =>
    rcases p with ⟨n, i⟩
    intro s
    simp only [copyItems]
    have := ih (s ++ [s.getD i defaultFinItem])
    rw [List.length_append] at this
    simp only [List.length_cons, List.length_nil] at this
    omega

theorem copyItems_ids_ge :
    ∀ (l : List (String × Nat)) (s : Store),
      ∀ p ∈ (copyItems l s).1, s.length ≤ p.2 := by
  intro l
  induction l with
  | nil => intro s p hp; cases hp
  | cons q rest ih =>
    rcases q with ⟨n, i⟩
    intro s p hp
    simp only [copyItems, List.mem_cons] at hp
    rcases hp with rfl | hp
    · exact Nat.le_refl _
    · have := ih (s ++ [s.getD i defaultFinItem]) p hp
      rw [List.length_append] at this
      simp only [List.length_cons, List.length_nil] at this
      omega

theorem deepcopy_getD_low (c : CompanyRef) (s : Store) (k : Nat)
    (hk : k < s.length) (d : FinancialItem) :
    (deepcopyCompany c s).2.getD k d = s.getD k d := by
  simp only [deepcopyCompany]
  have l1 := copyItems_length_le c.incomeIds s
  have l2 := copyItems_length_le c.balanceIds (copyItems c.incomeIds s).2
  have l3 := copyItems_length_le c.cashflowIds
    (copyItems c.balanceIds (copyItems c.incomeIds s).2).2
  have l4 := copyItems_length_le c.kpiIds
    (copyItems c.cashflowIds (copyItems c.balanceIds (copyItems c.incomeIds s).2).2).2
  rw [copyItems_getD_low d _ _ _ (by omega), copyItems_getD_low d _ _ _ (by omega),
    copyItems_getD_low d _ _ _ (by omega), copyItems_getD_low d _ _ _ (by omega),
    copyItems_getD_low d _ _ _ hk]

theorem deepcopy_ids_fresh (c : CompanyRef) (s : Store) :
    ∀ j ∈ companyIds (deepcopyCompany c s).1, s.length ≤ j := by
  intro j hj
  have l1 := copyItems_length_le c.incomeIds s
  have l2 := copyItems_length_le c.balanceIds (copyItems c.incomeIds s).2
  have l3 := copyItems_length_le c.cashflowIds
    (copyItems c.balanceIds (copyItems c.incomeIds s).2).2
  have l4 := copyItems_length_le c.kpiIds
    (copyItems c.cashflowIds (copyItems c.balanceIds (copyItems c.incomeIds s).2).2).2
  unfold companyIds deepcopyCompany at hj
  simp only [List.map_append, List.mem_append] at hj
  rcases hj with ((((h | h) | h) | h) | h) <;>
    obtain ⟨p, hp, rfl⟩ := List.mem_map.mp h
  · exact copyItems_ids_ge c.incomeIds s p hp
  · have := copyItems_ids_ge c.balanceIds (copyItems c.incomeIds s).2 p hp
    omega
  · have := copyItems_ids_ge c.cashflowIds
      (copyItems c.balanceIds (copyItems c.incomeIds s).2).2 p hp
    omega
  · have := copyItems_ids_ge c.kpiIds
      (copyItems c.cashflowIds (copyItems c.balanceIds (copyItems c.incomeIds s).2).2).2 p hp
    omega
  · have := copyItems_ids_ge c.otherIds
      (copyItems c.kpiIds (copyItems c.cashflowIds
        (copyItems c.balanceIds (copyItems c.incomeIds s).2).2).2).2 p hp
    omega

/-- C10: run_scenario operates on a deep clone. First conjunct: the whole
run_scenario call leaves every line item the original company references
unchanged in the store (its only store effect is allocating the clone).
Second conjunct: mutating any line item of the clone (any statement, any
mutation) never changes any line item the original company references. -/
theorem C10_scenario_deep_copy_isolation (sm : ScenarioModel) (c : CompanyRef)
    (s : Store) (label : String)
    (hids : ∀ i ∈ companyIds c, i < s.length) :
    (∀ i ∈ companyIds c,
      (run_scenario sm c s label).2.getD i defaultFinItem = s.getD i defaultFinItem) ∧
    (∀ i ∈ companyIds c, ∀ j ∈ companyIds (deepcopyCompany c s).1,
      ∀ f : FinancialItem → FinancialItem,
        (mutateItem (deepcopyCompany c s).2 j f).getD i defaultFinItem =
          (deepcopyCompany c s).2.getD i defaultFinItem) := by
  constructor
  · intro i hi
    exact deepcopy_getD_low c s i (hids i hi) defaultFinItem
  · intro i hi j hj f
    have hij : i ≠ j := by
      have h1 := hids i hi
      have h2 := deepcopy_ids_fresh c s j hj
      omega
    simp only [mutateItem, List.getD]
    rw [List.get?_set_ne _ _ (fun h => hij h.symm)]

/-- C10 witness: a one-item company, store of length one; the clone occupies
index 1, and both isolation conjuncts hold concretely at index 0. -/
theorem C10_scenario_deep_copy_isolation_witness :
    ((run_scenario ⟨1000, some 50, 1, "Annual", 1/2, "NetIncome", 1/50, 1/10⟩
        ⟨"Acme", "ACM", "USD", none, [("NetIncome", 0)], [], [], [], []⟩
        [⟨"NetIncome", FinancialItemType.result, [("2023", 90)], [("2024", 100)]⟩]
        "Base").2.getD 0 defaultFinItem =
      ([⟨"NetIncome", FinancialItemType.result, [("2023", 90)], [("2024", 100)]⟩] :
        Store).getD 0 defaultFinItem) ∧
    ((mutateItem (deepcopyCompany
          ⟨"Acme", "ACM", "USD", none, [("NetIncome", 0)], [], [], [], []⟩
          [⟨"NetIncome", FinancialItemType.result, [("2023", 90)], [("2024", 100)]⟩]).2
        1 (fun it => it.add_forecasted "2025" 999)).getD 0 defaultFinItem =
      (deepcopyCompany
          ⟨"Acme", "ACM", "USD", none, [("NetIncome", 0)], [], [], [], []⟩
          [⟨"NetIncome", FinancialItemType.result, [("2023", 90)], [("2024", 100)]⟩]).2.getD
        0 defaultFinItem) :=
  ⟨(C10_scenario_deep_copy_isolation ⟨1000, some 50, 1, "Annual", 1/2, "NetIncome", 1/50, 1/10⟩
      ⟨"Acme", "ACM", "USD", none, [("NetIncome", 0)], [], [], [], []⟩
      [⟨"NetIncome", FinancialItemType.result, [("2023", 90)], [("2024", 100)]⟩]
      "Base" (by decide)).1 0 (by decide),
   (C10_scenario_deep_copy_isolation ⟨1000, some 50, 1, "Annual", 1/2, "NetIncome", 1/50, 1/10⟩
      ⟨"Acme", "ACM", "USD", none, [("NetIncome", 0)], [], [], [], []⟩
      [⟨"NetIncome", FinancialItemType.result, [("2023", 90)], [("2024", 100)]⟩]
      "Base" (by decide)).2 0 (by decide) 1 (by decide)
     (fun it => it.add_forecasted "2025" 999)⟩
